import Mathlib

/-!
# Verification of `jtso`'s container stats collector (`src/container/container.go`)

Shallow embedding of the container stats collection engine:

* Machine integers: the relevant fields of `container.StatsResponse`
  (`CPUStats.CPUUsage.TotalUsage`, `CPUStats.SystemUsage`, `MemoryStats.Usage`,
  `MemoryStats.Limit`, the `MemoryStats.Stats` map values) are Go `uint64`
  (`OnlineCPUs` is `uint32`); they are modelled as `Nat`, with Go's wrapping
  subtraction made explicit (`u64sub`).
* `float64` arithmetic is idealised as exact rational (`ℚ`) arithmetic; the
  comparisons the code performs (`<= 0.0`, `> 0`) and the conversions from
  unsigned integers are order-preserving, so every guard decision of the model
  matches the Go code on in-range inputs.
* Go maps (`map[string]float64`, `map[string]map[string]float64`) are modelled
  as association lists with unique keys, built by an insert-or-overwrite
  operation matching `maps.Copy`.
* Effects: `collectStats`'s two stats fetches (HTTP call + JSON decode) are
  modelled by a `FetchOutcome` oracle per fetch; the channel send is the
  function's returned emission; `time.Sleep` is recorded as a Boolean flag.
  The out-of-bounds panic on `containerSummary.Names[0]` when `Names` is empty
  is modelled as a `none` emission.
-/

namespace Jtso.Container

/-- Go `uint64` wrapping subtraction `a - b` (for `a b < 2^64`, which is every
value a Go `uint64` can hold). Go's unsigned subtraction wraps modulo `2^64`;
it never yields a negative number. -/
def u64sub (a b : Nat) : Nat :=
  (a + 2 ^ 64 - b) % 2 ^ 64

/-- `container.CPUUsage`: the fields `calculateCPUPercent` reads. -/
structure CPUUsage where
  totalUsage : Nat
  deriving DecidableEq

/-- `container.CPUStats`: the fields `calculateCPUPercent` reads.
`onlineCPUs` is a Go `uint32`, hence non-negative. -/
structure CPUStats where
  cpuUsage : CPUUsage
  systemUsage : Nat
  onlineCPUs : Nat
  deriving DecidableEq

/-- `container.MemoryStats`: the fields the memory computation reads.
`stats` models the Go map `Stats map[string]uint64` as an association list
(the code only looks up the key `"cache"`). -/
structure MemoryStats where
  usage : Nat
  stats : List (String × Nat)
  limit : Nat
  deriving DecidableEq

/-- `container.StatsResponse`: the decoded stats document. -/
structure StatsResponse where
  cpuStats : CPUStats
  memoryStats : MemoryStats
  deriving DecidableEq

/-- `container.Summary`: a listed container (`ID` and `Names`). -/
structure Summary where
  id : String
  names : List String
  deriving DecidableEq

/-- `cpuDelta := float64(current.CPUStats.CPUUsage.TotalUsage - previous.CPUStats.CPUUsage.TotalUsage)`
(container.go line 35). The subtraction is `uint64` subtraction, wrapping
modulo `2^64`, and only then converted to `float64`; so `cpuDelta ≥ 0` always. -/
def cpuDelta (current previous : StatsResponse) : ℚ :=
  (u64sub current.cpuStats.cpuUsage.totalUsage previous.cpuStats.cpuUsage.totalUsage : ℚ)

/-- `systemDelta := float64(current.CPUStats.SystemUsage - previous.CPUStats.SystemUsage)`
(container.go line 36): `uint64` wrapping subtraction, then conversion. -/
def systemDelta (current previous : StatsResponse) : ℚ :=
  (u64sub current.cpuStats.systemUsage previous.cpuStats.systemUsage : ℚ)

/-- `onlineCPUs := float64(current.CPUStats.OnlineCPUs)` (container.go line 37). -/
def onlineCPUs (current : StatsResponse) : ℚ :=
  (current.cpuStats.onlineCPUs : ℚ)

/-- `calculateCPUPercent` (container.go lines 34-46), argument order as in the
source: `calculateCPUPercent(current, previous)`. -/
def calculateCPUPercent (current previous : StatsResponse) : ℚ :=
  if systemDelta current previous ≤ 0 ∨ onlineCPUs current ≤ 0 then 0
  else cpuDelta current previous / systemDelta current previous * onlineCPUs current * 100

/-- Lookup in the modelled `MemoryStats.Stats` map (Go `Stats["cache"]`). -/
def lookupStat (stats : List (String × Nat)) (key : String) : Option Nat :=
  (stats.find? (fun p => p.1 == key)).map (fun p => p.2)

/-- `memUsage` as computed in `collectStats` (container.go lines 85-90):
`memUsage := float64(currentStats.MemoryStats.Usage)`, then
`memUsage -= float64(cache)` if the `"cache"` key is present. The subtraction
happens after the conversion to `float64`, so it can go negative. -/
def memUsage (current : StatsResponse) : ℚ :=
  match lookupStat current.memoryStats.stats "cache" with
  | some cache => (current.memoryStats.usage : ℚ) - (cache : ℚ)
  | none => (current.memoryStats.usage : ℚ)

/-- `memPercent` as computed in `collectStats` (container.go lines 91-95):
`memPercent := 0.0; if memLimit > 0 { memPercent = (memUsage / memLimit) * 100.0 }`. -/
def memPercent (current : StatsResponse) : ℚ :=
  if (current.memoryStats.limit : ℚ) > 0 then
    memUsage current / (current.memoryStats.limit : ℚ) * 100
  else 0

/-- The spec's `memoryCacheBytes` field of a CounterSnapshot: the `"cache"`
entry of the stats map, `0` when absent (the code then subtracts nothing). -/
def memoryCacheBytes (current : StatsResponse) : Nat :=
  (lookupStat current.memoryStats.stats "cache").getD 0

/-- Modelled from the spec (§4.1): `systemDelta = current.systemTimeTotal -
previous.systemTimeTotal` as exact signed arithmetic, which is negative after
a counter reset. The code instead computes the `uint64` wrapping difference
(`systemDelta`, above); this definition exists only to compare the spec's
reading with the code's. -/
def specSystemDelta (current previous : StatsResponse) : ℚ :=
  (current.cpuStats.systemUsage : ℚ) - (previous.cpuStats.systemUsage : ℚ)

/-- One metric result sent on the channel: the Go inner `map[string]float64`.
The code only ever builds it with key list `["error"]` or `["cpu", "mem"]`,
so an association list is an exact model. -/
abbrev MetricResult := List (String × ℚ)

/-- The aggregate `map[string]map[string]float64` (`Cstats.Stats`). -/
abbrev Aggregate := List (String × MetricResult)

/-- The sentinel error result `{"error": 1.0}` sent on every failure path. -/
def sentinelResult : MetricResult := [("error", 1)]

/-- `strings.TrimPrefix(name, "/")`: drop the leading `"/"` if present
(written on the underlying character list so it computes by `decide`). -/
def trimLeadingSlash (s : String) : String :=
  match s.data with
  | '/' :: rest => String.mk rest
  | _ => s

/-- Outcome of one `cli.ContainerStats` fetch as observed by `collectStats`:
the call itself can return an error (`fetchErr`), the JSON decode of the body
can fail (`decodeErr`), or a `StatsResponse` is decoded (`ok`). -/
inductive FetchOutcome where
  | fetchErr
  | decodeErr
  | ok (s : StatsResponse)

/-- What one run of `collectStats` did: `emitted` is the single value sent on
`resultChan` (`none` models the index-out-of-range panic on
`containerSummary.Names[0]` when `Names` is empty — no value is ever sent);
`slept` records whether the `time.Sleep(interval)` between the two fetches
was reached. -/
structure SamplerRun where
  emitted : Option (String × MetricResult)
  slept : Bool
  deriving DecidableEq

/-- `collectStats` (container.go lines 48-105), with the two fetch+decode
results supplied by an oracle. Every error path sends
`{containerSummary.Names[0]: {"error": 1.0}}` — note: *without*
`strings.TrimPrefix` — and returns; the success path sends
`{TrimPrefix(Names[0], "/"): {"cpu": ..., "mem": ...}}`. The sleep at line 65
runs only after the first fetch and decode both succeeded. -/
def collectStats (containerSummary : Summary) (first second : FetchOutcome) :
    SamplerRun :=
  match first with
  | .fetchErr =>
      ⟨containerSummary.names.head?.map (fun n => (n, sentinelResult)), false⟩
  | .decodeErr =>
      ⟨containerSummary.names.head?.map (fun n => (n, sentinelResult)), false⟩
  | .ok prevStats =>
    match second with
    | .fetchErr =>
        ⟨containerSummary.names.head?.map (fun n => (n, sentinelResult)), true⟩
    | .decodeErr =>
        ⟨containerSummary.names.head?.map (fun n => (n, sentinelResult)), true⟩
    | .ok currentStats =>
        ⟨containerSummary.names.head?.map (fun n =>
          (trimLeadingSlash n,
           [("cpu", calculateCPUPercent currentStats prevStats),
            ("mem", memPercent currentStats)])), true⟩

/-- Whether a target's cycle fails (some fetch or decode errored), as a
function of its two fetch outcomes. -/
def outcomeFails : FetchOutcome × FetchOutcome → Bool
  | (.ok _, .ok _) => false
  | _ => true

/-- The single entry `collectStats` emits for a target with a non-empty
`Names` list, as a total function of the two fetch outcomes: the sentinel
keyed by the raw `Names[0]` on failure, the `{cpu, mem}` result keyed by the
trimmed `Names[0]` on success. -/
def emittedEntry (t : Summary) : FetchOutcome × FetchOutcome → String × MetricResult
  | (.ok prevStats, .ok currentStats) =>
      (trimLeadingSlash (t.names.headD ""),
       [("cpu", calculateCPUPercent currentStats prevStats),
        ("mem", memPercent currentStats)])
  | _ => (t.names.headD "", sentinelResult)

/-- One step of the aggregation loop (container.go line 203):
`maps.Copy(Cstats.Stats, result)` for a single-entry `result` map —
insert-or-overwrite by key. -/
def mapsCopyOne (m : Aggregate) (kv : String × MetricResult) : Aggregate :=
  if kv.1 ∈ m.map Prod.fst then
    m.map (fun p => if p.1 = kv.1 then kv else p)
  else m ++ [kv]

/-- The aggregation loop (container.go lines 200-204): start from a fresh
empty map and copy in the drained results one by one. -/
def installAggregate (results : List (String × MetricResult)) : Aggregate :=
  results.foldl mapsCopyOne []

/-- The list of values sent on `resultChan` by the per-target goroutines, in
target order (`none` if some goroutine panicked on an empty `Names` list;
the channel delivers them in an arbitrary order, which the aggregation
theorems account for by quantifying over permutations). -/
def cycleEmissions (oracle : Summary → FetchOutcome × FetchOutcome) :
    List Summary → Option (List (String × MetricResult))
  | [] => some []
  | t :: ts =>
    match (collectStats t (oracle t).1 (oracle t).2).emitted,
        cycleEmissions oracle ts with
    | some r, some rs => some (r :: rs)
    | _, _ => none

/-- How far `GetContainerStats` gets before sampling: creating the Docker
client can fail (line 173), listing the containers can fail (line 180), or a
target list is obtained. -/
inductive ListOutcome where
  | clientError
  | listError
  | ok (targets : List Summary)

/-- `GetContainerStats` (container.go lines 169-206) acting on the store
`Cstats.Stats`: on client-creation or listing failure it logs and returns,
leaving the store untouched; otherwise it collects all per-target results and
installs a freshly built aggregate. The outer `none` models the process crash
when a goroutine panics on an empty `Names` list. -/
def GetContainerStats (pre : ListOutcome)
    (oracle : Summary → FetchOutcome × FetchOutcome) (stats : Aggregate) :
    Option Aggregate :=
  match pre with
  | .clientError => some stats
  | .listError => some stats
  | .ok targets =>
    match cycleEmissions oracle targets with
    | none => none
    | some rs => some (installAggregate rs)

/-- The store as a reader sees it: whether `Cstats.StMu` is held, and the
current value of `Cstats.Stats`. -/
structure StoreState where
  locked : Bool
  stats : Aggregate
  deriving DecidableEq

/-- The sequence of store states during the replacement section of
`GetContainerStats` (container.go lines 200-205): before `Lock()`, after
`Lock()`, after `Cstats.Stats = make(...)` and after each `maps.Copy` (the
states with `locked = true`), and after `Unlock()`. -/
def replaceTrace (old : Aggregate) (rs : List (String × MetricResult)) :
    List StoreState :=
  ⟨false, old⟩ :: ⟨true, old⟩ ::
    ((List.range (rs.length + 1)).map
      (fun i => ⟨true, installAggregate (rs.take i)⟩))
    ++ [⟨false, installAggregate rs⟩]

/-! ## Concrete snapshots used by counterexamples and witnesses -/

/-- A current snapshot whose system counter (5) is *smaller* than the previous
one's (10): a counter reset. `onlineCPUs = 1`. -/
def resetCur : StatsResponse := ⟨⟨⟨20⟩, 5, 1⟩, ⟨0, [], 0⟩⟩

/-- The previous snapshot for the counter-reset pair. -/
def resetPrev : StatsResponse := ⟨⟨⟨10⟩, 10, 0⟩, ⟨0, [], 0⟩⟩

/-- The spec's worked example (§8), previous snapshot:
`cpuTimeTotal 100, systemTimeTotal 1000, onlineUnits 2`. -/
def exPrev : StatsResponse := ⟨⟨⟨100⟩, 1000, 2⟩, ⟨0, [], 0⟩⟩

/-- The spec's worked example (§8), current snapshot: `cpuTimeTotal 150,
systemTimeTotal 1100, onlineUnits 2; usage 80, cache 10, limit 100`. -/
def exCur : StatsResponse := ⟨⟨⟨150⟩, 1100, 2⟩, ⟨80, [("cache", 10)], 100⟩⟩

/-- A snapshot whose cache (30) exceeds its usage (10), limit 100: the
negative-usage edge case of §4.1/§9. -/
def negUsageCur : StatsResponse := ⟨⟨⟨0⟩, 0, 0⟩, ⟨10, [("cache", 30)], 100⟩⟩

/-- A snapshot pair with equal system counters (`systemDelta = 0`). -/
def idleCur : StatsResponse := ⟨⟨⟨7⟩, 7, 1⟩, ⟨0, [], 0⟩⟩

/-! ## C2 — the divide-by-zero guard vs counter resets -/

/-- C2 (counterexample): the claim says `calculateCPUPercent` returns `0.0`
whenever `systemDelta ≤ 0`, including a counter reset where the current
system counter is smaller than the previous one. On the pair
`resetCur`/`resetPrev` the spec-level `systemDelta` is `-5 ≤ 0`, yet the
function does not return `0`: the Go `uint64` subtraction wraps the reset to
the huge positive delta `2^64 - 5`, which bypasses the guard. -/
theorem C2_counterexample :
    specSystemDelta resetCur resetPrev ≤ 0 ∧
      calculateCPUPercent resetCur resetPrev ≠ 0 := by
  constructor
  · norm_num [specSystemDelta, resetCur, resetPrev]
  · norm_num [calculateCPUPercent, systemDelta, cpuDelta, onlineCPUs, u64sub,
      resetCur, resetPrev]

/-- C2 (amended): the deltas are `uint64` wrapping differences and hence never
negative; `calculateCPUPercent` returns exactly `0.0` whenever the *computed*
`systemDelta ≤ 0` (that is, the system counters are equal modulo `2^64`) or
`onlineUnits ≤ 0`. A counter reset instead wraps to a large positive delta
that the guard does not catch. -/
theorem C2_guard_zero (current previous : StatsResponse)
    (h : systemDelta current previous ≤ 0 ∨ onlineCPUs current ≤ 0) :
    calculateCPUPercent current previous = 0 := by
  unfold calculateCPUPercent
  rw [if_pos h]

/-- Witness for `C2_guard_zero`: equal system counters give `systemDelta = 0`
and the result `0`. -/
theorem C2_guard_zero_witness :
    (systemDelta idleCur idleCur ≤ 0 ∨ onlineCPUs idleCur ≤ 0) ∧
      calculateCPUPercent idleCur idleCur = 0 :=
  ⟨Or.inl (by norm_num [systemDelta, idleCur, u64sub]),
   C2_guard_zero idleCur idleCur
     (Or.inl (by norm_num [systemDelta, idleCur, u64sub]))⟩

/-! ## C4 — the CPU formula on the non-degenerate domain -/

/-- C4 (confirmed): whenever the computed `systemDelta > 0` and
`onlineCPUs > 0`, `calculateCPUPercent` equals
`(cpuDelta / systemDelta) * onlineCPUs * 100` exactly (a finite rational in
this exact-arithmetic model), and the value is non-negative whenever
`cpuDelta ≥ 0`. -/
theorem C4_cpu_formula (current previous : StatsResponse)
    (h1 : 0 < systemDelta current previous) (h2 : 0 < onlineCPUs current) :
    calculateCPUPercent current previous =
      cpuDelta current previous / systemDelta current previous *
        onlineCPUs current * 100 ∧
    (0 ≤ cpuDelta current previous → 0 ≤ calculateCPUPercent current previous) := by
  have hcond : ¬(systemDelta current previous ≤ 0 ∨ onlineCPUs current ≤ 0) := by
    push_neg
    exact ⟨h1, h2⟩
  have hval : calculateCPUPercent current previous =
      cpuDelta current previous / systemDelta current previous *
        onlineCPUs current * 100 := by
    unfold calculateCPUPercent
    rw [if_neg hcond]
  refine ⟨hval, fun hc => ?_⟩
  rw [hval]
  have : 0 ≤ cpuDelta current previous / systemDelta current previous :=
    div_nonneg hc h1.le
  positivity

/-- Witness for `C4_cpu_formula`: the spec's §8 example, where the formula
gives `(50/100) * 2 * 100 = 100`. -/
theorem C4_cpu_formula_witness :
    0 < systemDelta exCur exPrev ∧ 0 < onlineCPUs exCur ∧
      (calculateCPUPercent exCur exPrev =
        cpuDelta exCur exPrev / systemDelta exCur exPrev * onlineCPUs exCur * 100 ∧
       (0 ≤ cpuDelta exCur exPrev → 0 ≤ calculateCPUPercent exCur exPrev)) :=
  ⟨by norm_num [systemDelta, exCur, exPrev, u64sub],
   by norm_num [onlineCPUs, exCur],
   C4_cpu_formula exCur exPrev
     (by norm_num [systemDelta, exCur, exPrev, u64sub])
     (by norm_num [onlineCPUs, exCur])⟩

/-! ## C5, C6 — the memory formula -/

/-- C5 (confirmed): with a positive memory limit, the memory percentage is
exactly `((usage - cache) / limit) * 100`, where `cache` is the `"cache"`
entry of the stats map (`0` when absent); a negative difference (cache larger
than usage) flows through unclamped, as the witness shows concretely. -/
theorem C5_mem_formula (current : StatsResponse)
    (h : 0 < (current.memoryStats.limit : ℚ)) :
    memPercent current =
      ((current.memoryStats.usage : ℚ) - (memoryCacheBytes current : ℚ)) /
        (current.memoryStats.limit : ℚ) * 100 := by
  unfold memPercent memUsage memoryCacheBytes
  cases hfind : lookupStat current.memoryStats.stats "cache" with
  | none => simp [h]
  | some cache => simp [h]

/-- Witness for `C5_mem_formula`: usage 10, cache 30, limit 100 give the
*negative*, unclamped value `-20`. -/
theorem C5_mem_formula_witness :
    0 < ((negUsageCur.memoryStats.limit : Nat) : ℚ) ∧
      memPercent negUsageCur = -20 :=
  ⟨by norm_num [negUsageCur],
   (C5_mem_formula negUsageCur (by norm_num [negUsageCur])).trans
     (by norm_num [negUsageCur, memoryCacheBytes, lookupStat])⟩

/-- C6 (confirmed): with `memoryLimitBytes ≤ 0` (the limit is a `uint64`, so
this means limit `= 0`), the memory percentage is exactly `0.0`, whatever the
usage and cache values are. -/
theorem C6_mem_zero_limit (current : StatsResponse)
    (h : (current.memoryStats.limit : ℚ) ≤ 0) :
    memPercent current = 0 := by
  unfold memPercent
  rw [if_neg (not_lt.2 h)]

/-- Witness for `C6_mem_zero_limit`: `resetCur` has limit `0`. -/
theorem C6_mem_zero_limit_witness :
    ((resetCur.memoryStats.limit : Nat) : ℚ) ≤ 0 ∧ memPercent resetCur = 0 :=
  ⟨by norm_num [resetCur],
   C6_mem_zero_limit resetCur (by norm_num [resetCur])⟩

/-! ## C3, C7, C10 — the per-target sampler -/

/-- For a target with a non-empty `Names` list, `collectStats` emits exactly
`emittedEntry`. -/
theorem collectStats_emitted (t : Summary) (f1 f2 : FetchOutcome)
    (hn : t.names ≠ []) :
    (collectStats t f1 f2).emitted = some (emittedEntry t (f1, f2)) := by
  obtain ⟨n, rest, hrest⟩ : ∃ n rest, t.names = n :: rest := by
    cases hns : t.names with
    | nil => exact absurd hns hn
    | cons n rest => exact ⟨n, rest, rfl⟩
  cases f1 <;> cases f2 <;>
    simp [collectStats, emittedEntry, hrest]

/-- C3 (counterexample): on a fetch failure for the target named `"/web"`,
the sentinel is keyed by the raw `Names[0]` value `"/web"`, not by the
trimmed display name `"web"` — the error paths of `collectStats` skip
`strings.TrimPrefix`. -/
theorem C3_counterexample :
    (collectStats ⟨"cid", ["/web"]⟩ .fetchErr .fetchErr).emitted =
      some ("/web", sentinelResult) ∧
    trimLeadingSlash "/web" = "web" ∧ ("/web" : String) ≠ "web" := by
  refine ⟨by decide, by decide, by decide⟩

/-- C3 (amended): a key emitted on the success path is the target's first
name with the leading separator stripped, but a key emitted with the sentinel
error result on a fetch or decode failure is the raw first name, unstripped. -/
theorem C3_emitted_keys (t : Summary) (f1 f2 : FetchOutcome) (k : String)
    (r : MetricResult) (hn : t.names ≠ [])
    (he : (collectStats t f1 f2).emitted = some (k, r)) :
    (r = sentinelResult → k = t.names.headD "") ∧
    (r ≠ sentinelResult → k = trimLeadingSlash (t.names.headD "")) := by
  have hkr : (k, r) = emittedEntry t (f1, f2) :=
    Option.some.inj (he.symm.trans (collectStats_emitted t f1 f2 hn))
  have hk : k = (emittedEntry t (f1, f2)).1 := congrArg Prod.fst hkr
  have hr : r = (emittedEntry t (f1, f2)).2 := congrArg Prod.snd hkr
  cases f1 <;> cases f2 <;>
    first
      | exact ⟨fun _ => hk, fun hne => absurd hr hne⟩
      | exact ⟨fun hs => absurd (hr.symm.trans hs)
            (by simp [emittedEntry, sentinelResult]),
          fun _ => hk⟩

/-- Witness for `C3_emitted_keys`, at a failing fetch for target `"/web"`:
the sentinel key is the raw name. -/
theorem C3_emitted_keys_witness :
    ((["/web"] : List String) ≠ []) ∧
    (collectStats ⟨"cid", ["/web"]⟩ .fetchErr .fetchErr).emitted =
      some ("/web", sentinelResult) ∧
    ((sentinelResult = sentinelResult → ("/web" : String) = (["/web"] : List String).headD "") ∧
     (sentinelResult ≠ sentinelResult →
       ("/web" : String) = trimLeadingSlash ((["/web"] : List String).headD ""))) :=
  ⟨by decide, by decide,
   C3_emitted_keys ⟨"cid", ["/web"]⟩ .fetchErr .fetchErr "/web" sentinelResult
     (by decide) (by decide)⟩

/-- C7 (counterexample): for a target whose `Names` list is empty, the very
first failure path already indexes `Names[0]` and panics — modelled as a
`none` emission — so `collectStats` does *not* emit a `MetricResult` on every
execution path. -/
theorem C7_counterexample :
    (collectStats ⟨"c0", []⟩ .fetchErr .fetchErr).emitted = none := by
  decide

/-- C7 (amended): for every target whose `Names` list is non-empty,
`collectStats` emits exactly one `MetricResult` and never panics: if the
first fetch or decode fails it emits the sentinel without reaching the
interval sleep; if the second fetch or decode fails it emits the sentinel
after the sleep; otherwise it emits the `{cpu, mem}` result. -/
theorem C7_sampler_total (t : Summary) (f1 f2 : FetchOutcome)
    (hn : t.names ≠ []) :
    ((collectStats t f1 f2).emitted).isSome = true ∧
    ((f1 = .fetchErr ∨ f1 = .decodeErr) →
      (collectStats t f1 f2).emitted = some (t.names.headD "", sentinelResult) ∧
      (collectStats t f1 f2).slept = false) ∧
    (∀ p, f1 = .ok p → (f2 = .fetchErr ∨ f2 = .decodeErr) →
      (collectStats t f1 f2).emitted = some (t.names.headD "", sentinelResult) ∧
      (collectStats t f1 f2).slept = true) ∧
    (∀ p c, f1 = .ok p → f2 = .ok c →
      (collectStats t f1 f2).emitted =
        some (trimLeadingSlash (t.names.headD ""),
          [("cpu", calculateCPUPercent c p), ("mem", memPercent c)]) ∧
      (collectStats t f1 f2).slept = true) := by
  obtain ⟨n, rest, hrest⟩ : ∃ n rest, t.names = n :: rest := by
    cases hns : t.names with
    | nil => exact absurd hns hn
    | cons n rest => exact ⟨n, rest, rfl⟩
  cases f1 <;> cases f2 <;> simp [collectStats, hrest]

/-- Witness for `C7_sampler_total` at target `"/web"` with a first-fetch
failure. -/
theorem C7_sampler_total_witness :
    ((["/web"] : List String) ≠ []) ∧
    (((collectStats ⟨"cid", ["/web"]⟩ .fetchErr .fetchErr).emitted).isSome = true ∧
     ((FetchOutcome.fetchErr = .fetchErr ∨ FetchOutcome.fetchErr = .decodeErr) →
       (collectStats ⟨"cid", ["/web"]⟩ .fetchErr .fetchErr).emitted =
         some ((["/web"] : List String).headD "", sentinelResult) ∧
       (collectStats ⟨"cid", ["/web"]⟩ .fetchErr .fetchErr).slept = false) ∧
     (∀ p, FetchOutcome.fetchErr = .ok p →
       (FetchOutcome.fetchErr = .fetchErr ∨ FetchOutcome.fetchErr = .decodeErr) →
       (collectStats ⟨"cid", ["/web"]⟩ .fetchErr .fetchErr).emitted =
         some ((["/web"] : List String).headD "", sentinelResult) ∧
       (collectStats ⟨"cid", ["/web"]⟩ .fetchErr .fetchErr).slept = true) ∧
     (∀ p c, FetchOutcome.fetchErr = .ok p → FetchOutcome.fetchErr = .ok c →
       (collectStats ⟨"cid", ["/web"]⟩ .fetchErr .fetchErr).emitted =
         some (trimLeadingSlash ((["/web"] : List String).headD ""),
           [("cpu", calculateCPUPercent c p), ("mem", memPercent c)]) ∧
       (collectStats ⟨"cid", ["/web"]⟩ .fetchErr .fetchErr).slept = true)) :=
  ⟨by decide,
   C7_sampler_total ⟨"cid", ["/web"]⟩ .fetchErr .fetchErr (by decide)⟩

/-- C10 (confirmed): `collectStats` unconditionally reads `Names[0]`: for any
fetch outcomes, a summary with an empty `Names` list never emits (the access
is the modelled out-of-bounds panic, on failure paths and on the success path
alike), while any summary with a non-empty `Names` list always emits. -/
theorem C10_empty_names_panic :
    (∀ (i : String) (f1 f2 : FetchOutcome),
      (collectStats ⟨i, []⟩ f1 f2).emitted = none) ∧
    (∀ (t : Summary) (f1 f2 : FetchOutcome), t.names ≠ [] →
      ((collectStats t f1 f2).emitted).isSome = true) := by
  constructor
  · intro i f1 f2
    cases f1 <;> cases f2 <;> simp [collectStats]
  · intro t f1 f2 hn
    rw [collectStats_emitted t f1 f2 hn]
    rfl

/-! ## Aggregation lemmas -/

/-- A Bool-valued test for sentinel entries of the aggregate. -/
def isSentinelEntry (p : String × MetricResult) : Bool :=
  p.2 == sentinelResult

/-- A Bool-valued test for numeric `{cpu, mem}` entries of the aggregate. -/
def isNumericEntry (p : String × MetricResult) : Bool :=
  p.2.map Prod.fst == ["cpu", "mem"]

theorem isSentinelEntry_emittedEntry (t : Summary)
    (f : FetchOutcome × FetchOutcome) :
    isSentinelEntry (emittedEntry t f) = outcomeFails f := by
  rcases f with ⟨f1, f2⟩
  cases f1 <;> cases f2 <;>
    simp [isSentinelEntry, emittedEntry, outcomeFails, sentinelResult]

theorem isNumericEntry_emittedEntry (t : Summary)
    (f : FetchOutcome × FetchOutcome) :
    isNumericEntry (emittedEntry t f) = !outcomeFails f := by
  rcases f with ⟨f1, f2⟩
  cases f1 <;> cases f2 <;>
    simp [isNumericEntry, emittedEntry, outcomeFails, sentinelResult]

theorem countP_bnot {α : Type} (p : α → Bool) (l : List α) :
    l.countP (fun a => !p a) + l.countP p = l.length := by
  induction l with
  | nil => rfl
  | cons x xs ih =>
    cases hx : p x <;> simp [List.countP_cons, hx] <;> omega

theorem mapsCopyOne_not_mem (m : Aggregate) (kv : String × MetricResult)
    (h : kv.1 ∉ m.map Prod.fst) : mapsCopyOne m kv = m ++ [kv] := by
  unfold mapsCopyOne
  rw [if_neg h]

/-- Draining results whose keys are pairwise fresh just appends them:
the aggregation loop started from `acc` yields `acc ++ rs`. -/
theorem foldl_mapsCopyOne_eq_append (rs : List (String × MetricResult)) :
    ∀ acc : Aggregate, (∀ kv ∈ rs, kv.1 ∉ acc.map Prod.fst) →
      (rs.map Prod.fst).Nodup → rs.foldl mapsCopyOne acc = acc ++ rs := by
  induction rs with
  | nil =>
    intro acc _ _
    simp
  | cons kv rest ih =>
    intro acc hdisj hnd
    rw [List.map_cons, List.nodup_cons] at hnd
    obtain ⟨hhead, htail⟩ := hnd
    have hkv : kv.1 ∉ acc.map Prod.fst := hdisj kv (List.mem_cons_self kv rest)
    have hdisj' : ∀ kv' ∈ rest, kv'.1 ∉ (acc ++ [kv]).map Prod.fst := by
      intro kv' hmem
      rw [List.map_append, List.mem_append]
      rintro (hacc | hone)
      · exact hdisj kv' (List.mem_cons_of_mem kv hmem) hacc
      · rw [List.map_cons, List.map_nil, List.mem_singleton] at hone
        exact hhead (hone ▸ List.mem_map_of_mem Prod.fst hmem)
    rw [List.foldl_cons, mapsCopyOne_not_mem acc kv hkv,
      ih (acc ++ [kv]) hdisj' htail, List.append_assoc]
    rfl

/-- With pairwise-distinct keys, the installed aggregate is exactly the
drained result list. -/
theorem installAggregate_eq_self (rs : List (String × MetricResult))
    (h : (rs.map Prod.fst).Nodup) : installAggregate rs = rs := by
  unfold installAggregate
  rw [foldl_mapsCopyOne_eq_append rs [] (by simp) h]
  rfl

/-- When every target has a non-empty `Names` list, no goroutine panics and
the emitted results are exactly the `emittedEntry` of each target. -/
theorem cycleEmissions_eq (oracle : Summary → FetchOutcome × FetchOutcome)
    (ts : List Summary) (hn : ∀ t ∈ ts, t.names ≠ []) :
    cycleEmissions oracle ts =
      some (ts.map (fun t => emittedEntry t (oracle t))) := by
  induction ts with
  | nil => rfl
  | cons t rest ih =>
    rw [cycleEmissions,
      collectStats_emitted t (oracle t).1 (oracle t).2 (hn t (List.mem_cons_self t rest)),
      ih (fun u hu => hn u (List.mem_cons_of_mem t hu))]
    rfl

/-! ## C1 — completeness of a cycle's aggregate -/

/-- C1 (counterexample): two targets with distinct names, `/err` (whose fetch
fails) and `/ok` (which succeeds). The installed aggregate's keys are the
*raw* name `"/err"` for the sentinel and the *trimmed* name `"ok"` for the
numeric entry, so the key set matches neither the targets' raw names nor
their trimmed display names — the claimed key-set equality with the target
list snapshot fails on either reading. -/
theorem C1_counterexample :
    GetContainerStats
        (.ok [⟨"f", ["/err"]⟩, ⟨"s", ["/ok"]⟩])
        (fun t => if t.id == "f" then (.fetchErr, .fetchErr)
          else (.ok idleCur, .ok idleCur)) [] =
      some [("/err", sentinelResult), ("ok", [("cpu", 0), ("mem", 0)])] ∧
    ("ok" ∉ ([(⟨"f", ["/err"]⟩ : Summary), ⟨"s", ["/ok"]⟩].map
      (fun t => t.names.headD ""))) ∧
    ("/err" ∉ ([(⟨"f", ["/err"]⟩ : Summary), ⟨"s", ["/ok"]⟩].map
      (fun t => trimLeadingSlash (t.names.headD "")))) := by
  refine ⟨by decide, by decide, by decide⟩

/-- C1 (amended): a cycle over `N` targets (all with non-empty `Names`) whose
emitted keys — the raw `Names[0]` for the `K` failing targets, the trimmed
`Names[0]` for the `N − K` succeeding ones — are pairwise distinct installs
an aggregate with exactly `N` keys, of which `K` are the sentinel error
marker and `N − K` are numeric `{cpu, mem}` entries, whatever order the
result channel delivers them in (`rs` is any permutation of the emissions);
and the key set equals the set of per-target emitted keys taken at cycle
start. -/
theorem C1_aggregate_complete (targets : List Summary)
    (oracle : Summary → FetchOutcome × FetchOutcome) (st : Aggregate)
    (rs : List (String × MetricResult))
    (hnames : ∀ t ∈ targets, t.names ≠ [])
    (hdrain : rs.Perm (targets.map (fun t => emittedEntry t (oracle t))))
    (hkeys : (targets.map (fun t => (emittedEntry t (oracle t)).1)).Nodup) :
    GetContainerStats (.ok targets) oracle st =
      some (installAggregate (targets.map (fun t => emittedEntry t (oracle t)))) ∧
    (installAggregate rs).length = targets.length ∧
    (installAggregate rs).countP isSentinelEntry =
      targets.countP (fun t => outcomeFails (oracle t)) ∧
    (installAggregate rs).countP isNumericEntry =
      targets.length - targets.countP (fun t => outcomeFails (oracle t)) ∧
    (∀ k, k ∈ (installAggregate rs).map Prod.fst ↔
      ∃ t ∈ targets, (emittedEntry t (oracle t)).1 = k) := by
  have hmapkeys :
      ((targets.map (fun t => emittedEntry t (oracle t))).map Prod.fst).Nodup := by
    rw [List.map_map]
    exact hkeys
  have hrskeys : (rs.map Prod.fst).Nodup :=
    ((hdrain.map Prod.fst).nodup_iff).2 hmapkeys
  have hagg : installAggregate rs = rs := installAggregate_eq_self rs hrskeys
  have hKsent : targets.countP (fun t => isSentinelEntry (emittedEntry t (oracle t))) =
      targets.countP (fun t => outcomeFails (oracle t)) := by
    apply List.countP_congr
    intro t _
    rw [isSentinelEntry_emittedEntry]
  have hKnum : targets.countP (fun t => isNumericEntry (emittedEntry t (oracle t))) =
      targets.countP (fun t => !outcomeFails (oracle t)) := by
    apply List.countP_congr
    intro t _
    rw [isNumericEntry_emittedEntry]
  refine ⟨?_, ?_, ?_, ?_, ?_⟩
  · show (match cycleEmissions oracle targets with
      | none => none
      | some rs => some (installAggregate rs)) =
        some (installAggregate (targets.map (fun t => emittedEntry t (oracle t))))
    rw [cycleEmissions_eq oracle targets hnames]
  · rw [hagg, hdrain.length_eq, List.length_map]
  · rw [hagg, hdrain.countP_eq, List.countP_map, ← hKsent]
    rfl
  · rw [hagg, hdrain.countP_eq, List.countP_map]
    have hcomp : targets.countP (isNumericEntry ∘ fun t => emittedEntry t (oracle t)) =
        targets.countP (fun t => !outcomeFails (oracle t)) := hKnum
    rw [hcomp]
    have := countP_bnot (fun t => outcomeFails (oracle t)) targets
    omega
  · intro k
    rw [hagg]
    constructor
    · intro hk
      have hk' := (hdrain.map Prod.fst).mem_iff.1 hk
      rw [List.map_map] at hk'
      obtain ⟨t, ht, hkey⟩ := List.mem_map.1 hk'
      exact ⟨t, ht, hkey⟩
    · rintro ⟨t, ht, hkey⟩
      apply (hdrain.map Prod.fst).mem_iff.2
      rw [List.map_map]
      exact List.mem_map.2 ⟨t, ht, hkey⟩

/-- Targets for the `C1_aggregate_complete` witness: `/w` and `/x`. -/
def wTargets : List Summary := [⟨"w", ["/w"]⟩, ⟨"x", ["/x"]⟩]

/-- Oracle for the witness: `/w` fails its first fetch, `/x` succeeds with
idle counters (zero deltas, zero limit). -/
def wOracle : Summary → FetchOutcome × FetchOutcome := fun t =>
  if t.id == "w" then (.fetchErr, .fetchErr) else (.ok idleCur, .ok idleCur)

/-- Results as the channel might deliver them: in reverse target order. -/
def wDrain : List (String × MetricResult) :=
  [("x", [("cpu", 0), ("mem", 0)]), ("/w", sentinelResult)]

/-- Witness for `C1_aggregate_complete`: two targets, one failing, results
drained in reverse order; the aggregate has 2 keys, 1 sentinel, 1 numeric. -/
theorem C1_aggregate_complete_witness :
    (∀ t ∈ wTargets, t.names ≠ []) ∧
    wDrain.Perm (wTargets.map (fun t => emittedEntry t (wOracle t))) ∧
    (wTargets.map (fun t => (emittedEntry t (wOracle t)).1)).Nodup ∧
    (GetContainerStats (.ok wTargets) wOracle [] =
      some (installAggregate (wTargets.map (fun t => emittedEntry t (wOracle t)))) ∧
    (installAggregate wDrain).length = wTargets.length ∧
    (installAggregate wDrain).countP isSentinelEntry =
      wTargets.countP (fun t => outcomeFails (wOracle t)) ∧
    (installAggregate wDrain).countP isNumericEntry =
      wTargets.length - wTargets.countP (fun t => outcomeFails (wOracle t)) ∧
    (∀ k, k ∈ (installAggregate wDrain).map Prod.fst ↔
      ∃ t ∈ wTargets, (emittedEntry t (wOracle t)).1 = k)) :=
  ⟨by decide, by decide, by decide,
   C1_aggregate_complete wTargets wOracle [] wDrain
     (by decide) (by decide) (by decide)⟩

/-- Witness for `C10_empty_names_panic`: an empty-`Names` summary never
emits; a non-empty one does. -/
theorem C10_empty_names_panic_witness :
    (collectStats ⟨"c1", []⟩ .decodeErr .fetchErr).emitted = none ∧
    ((["/db"] : List String) ≠ []) ∧
    ((collectStats ⟨"c2", ["/db"]⟩ .decodeErr .fetchErr).emitted).isSome = true :=
  ⟨C10_empty_names_panic.1 "c1" .decodeErr .fetchErr, by decide,
   C10_empty_names_panic.2 ⟨"c2", ["/db"]⟩ .decodeErr .fetchErr (by decide)⟩

/-! ## C8 — cycle-fatal failures leave the store untouched -/

/-- C8 (confirmed): when creating the Docker client fails, or listing the
containers fails, `GetContainerStats` logs and returns before any sampling
starts, and the shared store `Cstats.Stats` is exactly what it was — no
partial aggregate is installed. -/
theorem C8_abort_preserves_store
    (oracle : Summary → FetchOutcome × FetchOutcome) (st : Aggregate) :
    GetContainerStats .clientError oracle st = some st ∧
    GetContainerStats .listError oracle st = some st :=
  ⟨rfl, rfl⟩

/-! ## C9 — atomicity of the aggregate replacement -/

/-- C9 (confirmed): the mutex is held from before `Cstats.Stats = make(...)`
until after the last `maps.Copy`, so every state of the replacement section
in which the lock is free shows either the entire old aggregate or the
entire new one — a reader that acquires `Cstats.StMu` can never observe a
partially populated map. -/
theorem C9_replace_atomic (old : Aggregate)
    (rs : List (String × MetricResult)) (s : StoreState)
    (hs : s ∈ replaceTrace old rs) (hfree : s.locked = false) :
    s.stats = old ∨ s.stats = installAggregate rs := by
  simp only [replaceTrace, List.mem_cons, List.mem_append, List.mem_map,
    List.mem_range, List.mem_singleton] at hs
  rcases hs with (rfl | rfl | ⟨i, hi, rfl⟩) | rfl | hemp
  · exact Or.inl rfl
  · simp at hfree
  · simp at hfree
  · exact Or.inr rfl
  · exact absurd hemp (List.not_mem_nil s)

/-- Witness for `C9_replace_atomic`: the post-`Unlock()` state of a
replacement installing one sentinel entry over an empty old aggregate. -/
theorem C9_replace_atomic_witness :
    ((⟨false, installAggregate [("a", sentinelResult)]⟩ : StoreState) ∈
      replaceTrace [] [("a", sentinelResult)]) ∧
    ((⟨false, installAggregate [("a", sentinelResult)]⟩ : StoreState).locked = false) ∧
    ((⟨false, installAggregate [("a", sentinelResult)]⟩ : StoreState).stats = [] ∨
     (⟨false, installAggregate [("a", sentinelResult)]⟩ : StoreState).stats =
       installAggregate [("a", sentinelResult)]) :=
  ⟨by decide, rfl,
   C9_replace_atomic [] [("a", sentinelResult)]
     ⟨false, installAggregate [("a", sentinelResult)]⟩ (by decide) rfl⟩

end Jtso.Container
